import Mathlib

/-!
Verification of `kernel_gateway/services/notebooks/handlers.py`
(`NotebookAPIHandler`): the per-request execution correlation and
aggregation bridge.  The Python handler state and its two central
methods, `on_recv` and `_handle_request`, are embedded as pure Lean
functions; Python dictionary access that can raise `KeyError` is
embedded in `Except Unit`.
-/

namespace NotebookGateway

/-- The aggregation fields of `NotebookAPIHandler`:
`execute_result`, `stream_messages`, `error_message`.
`execute_result` holds the textual payload of `msg.content.data`;
`error_message` holds the formatted error string once an error
message has been received. -/
structure AggState where
  execute_result : Option String
  stream_messages : List String
  error_message : Option String
deriving DecidableEq

/-- The `parent_header` sub-dictionary of a kernel message;
`msg_id` is absent when the dictionary lacks the key. -/
structure MsgParentHeader where
  msg_id : Option String
deriving DecidableEq

/-- The `header` sub-dictionary of a kernel message. -/
structure MsgHeader where
  msg_type : Option String
deriving DecidableEq

/-- The `content` sub-dictionary of a kernel message.  Each field is
optional: a Python dictionary may lack any key, and access then
raises `KeyError`. -/
structure MsgContent where
  execution_state : Option String
  data : Option String
  text : Option String
  ename : Option String
  evalue : Option String
deriving DecidableEq

/-- A kernel message as consumed by `on_recv`:
`{ parent_header: { msg_id }, header: { msg_type }, content: {...} }`. -/
structure Msg where
  parent_header : Option MsgParentHeader
  header : Option MsgHeader
  content : Option MsgContent
deriving DecidableEq

/-- The `result` dictionary built in the idle branch of `on_recv` and
set on `execution_future`: `{'status': ..., 'content': ...}`.  The
content is an `Option String` because the source can store Python
`None` there (it assigns `self.error_message`, which may be `None`). -/
structure TerminalResult where
  status : Nat
  content : Option String
deriving DecidableEq

/-- Python truthiness of an optional string: `None` and `''` are
falsy, every other string is truthy.  This also models the source's
`self.execute_result and self.execute_result is not ''` condition,
which likewise holds exactly for a present, non-empty value. -/
def truthyStrOpt : Option String → Bool
  | none => false
  | some s => !(s == "")

/-- `Future.set_result` (tornado / asyncio): a future resolves at most
once; calling `set_result` on an already-resolved future raises and
leaves the stored result unchanged.  Only the stored-result behaviour
is modelled. -/
def setResult (fut : Option TerminalResult) (r : TerminalResult) : Option TerminalResult :=
  match fut with
  | none => some r
  | some r0 => some r0

/-- The error string built by `on_recv` for an `error` message:
`'Error {}: {} \n'.format(ename, evalue)`. -/
def formatError (ename evalue : String) : String :=
  "Error " ++ ename ++ ": " ++ evalue ++ " \n"

/-- The `result` computed in the idle branch of `on_recv`, from the
current aggregation state:
`{'status': 200, 'content': ''}`, then
if `self.error_message`: content := error_message, status := 500;
elif `self.execute_result and self.execute_result is not ''`:
  content := `self.error_message` (the source assigns `error_message`
  here, not `execute_result`);
else: content := `''.join(self.stream_messages)`. -/
def idleResult (s : AggState) : TerminalResult :=
  if truthyStrOpt s.error_message then
    { status := 500, content := s.error_message }
  else if truthyStrOpt s.execute_result then
    { status := 200, content := s.error_message }
  else
    { status := 200, content := some (String.join s.stream_messages) }

/-- `NotebookAPIHandler.on_recv(self, msg)`.  `ph` is
`self.parent_header` (the correlation key of the target execution);
the handler's mutable fields are passed and returned explicitly.
Each Python dictionary access is a match whose `none` case is the
propagating `KeyError` (`Except.error ()`).  Python's `and` in the
status test short-circuits, so `content['execution_state']` is read
only for `status` messages. -/
def on_recv (ph : String) (s : AggState) (fut : Option TerminalResult) (msg : Msg) :
    Except Unit (AggState × Option TerminalResult) :=
  match msg.parent_header with
  | none => .error ()
  | some p =>
    match p.msg_id with
    | none => .error ()
    | some mid =>
      if mid = ph then
        match msg.header with
        | none => .error ()
        | some h =>
          match h.msg_type with
          | none => .error ()
          | some mt =>
            if mt = "status" then
              match msg.content with
              | none => .error ()
              | some c =>
                match c.execution_state with
                | none => .error ()
                | some es =>
                  if es = "idle" then
                    .ok (s, setResult fut (idleResult s))
                  else
                    .ok (s, fut)
            else if mt = "execute_result" then
              match msg.content with
              | none => .error ()
              | some c =>
                match c.data with
                | none => .error ()
                | some d => .ok ({ s with execute_result := some d }, fut)
            else if mt = "stream" then
              match msg.content with
              | none => .error ()
              | some c =>
                match c.text with
                | none => .error ()
                | some t => .ok ({ s with stream_messages := s.stream_messages ++ [t] }, fut)
            else if mt = "error" then
              match msg.content with
              | none => .error ()
              | some c =>
                match c.ename with
                | none => .error ()
                | some en =>
                  match c.evalue with
                  | none => .error ()
                  | some ev => .ok ({ s with error_message := some (formatError en ev) }, fut)
            else
              .ok (s, fut)
      else
        .ok (s, fut)

/-- One delivery of a message to the registered `on_recv` callback.
When `on_recv` raises, the exception propagates to the event loop and
the handler state is unchanged (every dictionary access in a branch
precedes that branch's mutation); later messages are still delivered. -/
def recvStep (ph : String) (st : AggState × Option TerminalResult) (msg : Msg) :
    AggState × Option TerminalResult :=
  match on_recv ph st.1 st.2 msg with
  | .ok st' => st'
  | .error _ => st

/-- Delivery of a sequence of kernel messages, in arrival order. -/
def processMsgs (ph : String) (st : AggState × Option TerminalResult) (msgs : List Msg) :
    AggState × Option TerminalResult :=
  msgs.foldl (recvStep ph) st

/-- A well-formed `stream` message carrying `text`. -/
def streamMsg (key text : String) : Msg :=
  { parent_header := some { msg_id := some key }
    header := some { msg_type := some "stream" }
    content := some { execution_state := none, data := none, text := some text,
                      ename := none, evalue := none } }

/-- A well-formed `execute_result` message carrying `data`. -/
def executeResultMsg (key data : String) : Msg :=
  { parent_header := some { msg_id := some key }
    header := some { msg_type := some "execute_result" }
    content := some { execution_state := none, data := some data, text := none,
                      ename := none, evalue := none } }

/-- A well-formed `error` message carrying `ename` and `evalue`. -/
def errorMsg (key ename evalue : String) : Msg :=
  { parent_header := some { msg_id := some key }
    header := some { msg_type := some "error" }
    content := some { execution_state := none, data := none, text := none,
                      ename := some ename, evalue := some evalue } }

/-- A well-formed `status` message carrying an execution state. -/
def statusMsg (key state : String) : Msg :=
  { parent_header := some { msg_id := some key }
    header := some { msg_type := some "status" }
    content := some { execution_state := some state, data := none, text := none,
                      ename := none, evalue := none } }

/-- The `status`/`idle` message that terminates an execution. -/
def idleMsg (key : String) : Msg := statusMsg key "idle"

/-- The aggregation fields as `_handle_request` resets them on entry:
`self.execute_result = None; self.stream_messages = []; self.error_message = None`. -/
def resetState : AggState :=
  { execute_result := none, stream_messages := [], error_message := none }

/-- The kernel-pool interactions performed by `_handle_request`:
`kernel_pool.acquire()`, `kernel_pool.on_recv(kernel_id, ...)` (listener
registration), `kernel_client.execute(...)` (submission), and
`kernel_pool.release(kernel_id)`. -/
inductive PoolEvent
  | acquire
  | registerListener
  | submit
  | release
deriving DecidableEq, BEq

/-- The environment of one `_handle_request` invocation: the request
method, the configured source methods, the outcome of each fallible
step inside the `try` block, and the kernel messages delivered to the
registered listener.  `key` is the `msg_id` returned by the second
`kernel_client.execute` call and stored in `self.parent_header`;
`awaitRaises` is an exception injected while the coroutine is
suspended on `yield self.execution_future` (e.g. cancellation). -/
structure ReqEnv where
  method : String
  sources : List String
  translationOk : Bool
  submissionOk : Bool
  key : String
  msgs : List Msg
  awaitRaises : Bool

/-- The observable outcome of one `_handle_request` invocation: the
pool interactions in order, each paired with the aggregation state at
the moment it occurs; the HTTP status set (`none` when an exception
propagated before `set_status`); what `self.write` received (`none`
when nothing was written); and whether `finish()` ran. -/
structure HandlerOutcome where
  events : List (PoolEvent × AggState)
  status : Option Nat
  body : Option (Option String)
  finished : Bool
deriving DecidableEq

/-- Number of occurrences of one pool interaction in an event trace. -/
def countEvent (evs : List (PoolEvent × AggState)) (p : PoolEvent) : Nat :=
  (evs.filter (fun e => e.1 == p)).length

/-- `NotebookAPIHandler._handle_request(self)`.  `s0` is the
aggregation state left on the handler before the call (the class-level
shared defaults, or residue of an earlier call); the method first
resets it.  Returns `none` when the coroutine suspends forever
(the kernel never sends a matching idle and nothing interrupts the
wait): on such a run no exit path is taken.  On every other run the
`try`/`finally` shape of the source is reproduced: the `finally`
clause releases the kernel and finishes the request on normal
completion, on translation failure, on submission failure, and on an
exception during the wait. -/
def handle_request (s0 : AggState) (env : ReqEnv) : Option HandlerOutcome :=
  -- lines 64-66: reset the aggregation fields
  let s1 := { s0 with execute_result := none, stream_messages := [], error_message := none }
  -- line 69: method not supported
  if env.method ∈ env.sources then
    -- line 77: kernel_client, kernel_id = yield self.kernel_pool.acquire()
    -- line 80 (inside try): self.kernel_pool.on_recv(kernel_id, self.on_recv)
    let pre := [(PoolEvent.acquire, s1), (PoolEvent.registerListener, s1)]
    if env.translationOk then
      if env.submissionOk then
        -- two kernel_client.execute calls: the request assignment, then the cell
        let sub := pre ++ [(PoolEvent.submit, s1), (PoolEvent.submit, s1)]
        let after := processMsgs env.key (s1, none) env.msgs
        match after.2 with
        | some r =>
            -- result = yield self.execution_future; set_status; write; finally
            some { events := sub ++ [(PoolEvent.release, after.1)],
                   status := some r.status, body := some r.content, finished := true }
        | none =>
            if env.awaitRaises then
              some { events := sub ++ [(PoolEvent.release, after.1)],
                     status := none, body := none, finished := true }
            else
              none
      else
        -- kernel_client.execute raised; straight to finally
        some { events := pre ++ [(PoolEvent.release, s1)],
               status := none, body := none, finished := true }
    else
      -- building the request dictionary / format_request raised; straight to finally
      some { events := pre ++ [(PoolEvent.release, s1)],
             status := none, body := none, finished := true }
  else
    -- lines 70-72: set_status(405); finish(); return
    some { events := [], status := some 405, body := none, finished := true }

theorem on_recv_streamMsg (ph t : String) (s : AggState) (fut : Option TerminalResult) :
    on_recv ph s fut (streamMsg ph t) =
      .ok ({ s with stream_messages := s.stream_messages ++ [t] }, fut) := by
  simp [on_recv, streamMsg]

theorem on_recv_executeResultMsg (ph d : String) (s : AggState) (fut : Option TerminalResult) :
    on_recv ph s fut (executeResultMsg ph d) =
      .ok ({ s with execute_result := some d }, fut) := by
  simp [on_recv, executeResultMsg]

theorem on_recv_errorMsg (ph n v : String) (s : AggState) (fut : Option TerminalResult) :
    on_recv ph s fut (errorMsg ph n v) =
      .ok ({ s with error_message := some (formatError n v) }, fut) := by
  simp [on_recv, errorMsg]

theorem on_recv_idleMsg (ph : String) (s : AggState) (fut : Option TerminalResult) :
    on_recv ph s fut (idleMsg ph) = .ok (s, setResult fut (idleResult s)) := by
  simp [on_recv, idleMsg, statusMsg]

theorem on_recv_key_mismatch (ph : String) (s : AggState) (fut : Option TerminalResult)
    (msg : Msg) (p : MsgParentHeader) (mid : String)
    (h1 : msg.parent_header = some p) (h2 : p.msg_id = some mid) (h3 : mid ≠ ph) :
    on_recv ph s fut msg = .ok (s, fut) := by
  simp [on_recv, h1, h2, h3]

theorem on_recv_unknown_type (ph : String) (s : AggState) (fut : Option TerminalResult)
    (msg : Msg) (h : MsgHeader) (mt : String)
    (h1 : msg.parent_header = some { msg_id := some ph })
    (h2 : msg.header = some h) (h3 : h.msg_type = some mt)
    (h4 : mt ≠ "status") (h5 : mt ≠ "execute_result") (h6 : mt ≠ "stream")
    (h7 : mt ≠ "error") :
    on_recv ph s fut msg = .ok (s, fut) := by
  simp [on_recv, h1, h2, h3, h4, h5, h6, h7]

theorem on_recv_fut (ph : String) (s : AggState) (fut : Option TerminalResult) (m : Msg)
    (st' : AggState × Option TerminalResult) (h : on_recv ph s fut m = .ok st') :
    st'.2 = fut ∨ st'.2 = setResult fut (idleResult s) := by
  unfold on_recv at h
  repeat' split at h
  all_goals (cases h <;> simp)

theorem recvStep_snd_resolved (ph : String) (s : AggState) (r : TerminalResult) (m : Msg) :
    (recvStep ph (s, some r) m).2 = some r := by
  rcases hrec : on_recv ph s (some r) m with e | st'
  · simp [recvStep, hrec]
  · have hc := on_recv_fut ph s (some r) m st' hrec
    simp only [recvStep, hrec]
    rcases hc with h | h
    · simpa using h
    · rw [h]; rfl

theorem processMsgs_snd_resolved (ph : String) (r : TerminalResult) :
    ∀ (msgs : List Msg) (st : AggState × Option TerminalResult),
      st.2 = some r → (processMsgs ph st msgs).2 = some r := by
  intro msgs
  induction msgs with
  | nil => intro st h; exact h
  | cons m rest ih =>
    intro st h
    obtain ⟨s, fut⟩ := st
    cases h
    simp only [processMsgs, List.foldl_cons] at *
    exact ih (recvStep ph (s, some r) m)
      (by rcases hstep : recvStep ph (s, some r) m with ⟨s', fut'⟩
          have := recvStep_snd_resolved ph s r m
          rw [hstep] at this
          exact this)

theorem formatError_ne_empty (n v : String) : formatError n v ≠ "" := by
  intro h
  have hlen := congrArg String.length h
  have h6 : ("Error " : String).length = 6 := rfl
  have h2 : (": " : String).length = 2 := rfl
  have h3 : (" \n" : String).length = 2 := rfl
  simp [formatError, String.length_append, h6, h2, h3] at hlen

theorem truthy_formatError (n v : String) :
    truthyStrOpt (some (formatError n v)) = true := by
  simp [truthyStrOpt]
  exact formatError_ne_empty n v

theorem idleResult_of_error (s : AggState) (n v : String)
    (h : s.error_message = some (formatError n v)) :
    idleResult s = { status := 500, content := some (formatError n v) } := by
  simp [idleResult, h, truthy_formatError]

theorem idleResult_streams_only (texts : List String) :
    idleResult { execute_result := none, stream_messages := texts, error_message := none } =
      { status := 200, content := some (String.join texts) } := by
  simp [idleResult, truthyStrOpt]

theorem recvStep_streamMsg (ph t : String) (s : AggState) (fut : Option TerminalResult) :
    recvStep ph (s, fut) (streamMsg ph t) =
      ({ s with stream_messages := s.stream_messages ++ [t] }, fut) := by
  simp [recvStep, on_recv_streamMsg]

theorem recvStep_executeResultMsg (ph d : String) (s : AggState) (fut : Option TerminalResult) :
    recvStep ph (s, fut) (executeResultMsg ph d) =
      ({ s with execute_result := some d }, fut) := by
  simp [recvStep, on_recv_executeResultMsg]

theorem recvStep_errorMsg (ph n v : String) (s : AggState) (fut : Option TerminalResult) :
    recvStep ph (s, fut) (errorMsg ph n v) =
      ({ s with error_message := some (formatError n v) }, fut) := by
  simp [recvStep, on_recv_errorMsg]

theorem recvStep_idleMsg (ph : String) (s : AggState) (fut : Option TerminalResult) :
    recvStep ph (s, fut) (idleMsg ph) = (s, setResult fut (idleResult s)) := by
  simp [recvStep, on_recv_idleMsg]

theorem processMsgs_cons (ph : String) (st : AggState × Option TerminalResult)
    (m : Msg) (rest : List Msg) :
    processMsgs ph st (m :: rest) = processMsgs ph (recvStep ph st m) rest := by
  simp [processMsgs]

theorem processMsgs_append (ph : String) (st : AggState × Option TerminalResult)
    (l1 l2 : List Msg) :
    processMsgs ph st (l1 ++ l2) = processMsgs ph (processMsgs ph st l1) l2 := by
  simp [processMsgs, List.foldl_append]

theorem processMsgs_streams (ph : String) :
    ∀ (texts : List String) (s : AggState) (fut : Option TerminalResult),
      processMsgs ph (s, fut) (texts.map (streamMsg ph)) =
        ({ s with stream_messages := s.stream_messages ++ texts }, fut) := by
  intro texts
  induction texts with
  | nil => intro s fut; simp [processMsgs]
  | cons t rest ih =>
    intro s fut
    rw [List.map_cons, processMsgs_cons, recvStep_streamMsg, ih]
    simp

theorem processMsgs_se_preserves (ph : String) :
    ∀ (l : List Msg),
      (∀ m ∈ l, (∃ t, m = streamMsg ph t) ∨ ∃ d, m = executeResultMsg ph d) →
      ∀ (s : AggState) (fut : Option TerminalResult),
        (processMsgs ph (s, fut) l).1.error_message = s.error_message ∧
        (processMsgs ph (s, fut) l).2 = fut := by
  intro l
  induction l with
  | nil => intro _ s fut; exact ⟨rfl, rfl⟩
  | cons m rest ih =>
    intro hall s fut
    have hm := hall m (List.mem_cons_self m rest)
    have hrest : ∀ m ∈ rest, (∃ t, m = streamMsg ph t) ∨ ∃ d, m = executeResultMsg ph d :=
      fun m hmem => hall m (List.mem_cons_of_mem _ hmem)
    rcases hm with ⟨t, rfl⟩ | ⟨d, rfl⟩
    · rw [processMsgs_cons, recvStep_streamMsg]
      exact ih hrest _ fut
    · rw [processMsgs_cons, recvStep_executeResultMsg]
      exact ih hrest _ fut

/-- C4: for every sequence of stream messages M1..Mn (matching the
correlation key) followed by an idle status, with no execute_result
and no error message received, the TerminalResult has status 200 and
its body is the concatenation of M1..Mn in arrival order (the empty
string when n = 0). -/
theorem claim_c4_stream_concat (ph : String) (texts : List String) :
    (processMsgs ph (resetState, none) (texts.map (streamMsg ph) ++ [idleMsg ph])).2 =
      some { status := 200, content := some (String.join texts) } := by
  rw [processMsgs_append, processMsgs_streams]
  have hstate : ({ resetState with stream_messages := resetState.stream_messages ++ texts }) =
      { execute_result := none, stream_messages := texts, error_message := none } := by
    simp [resetState]
  rw [hstate, show [idleMsg ph] = idleMsg ph :: [] from rfl, processMsgs_cons, recvStep_idleMsg]
  simp [processMsgs, setResult, idleResult_streams_only]

/-- C3: for every execution in which an error message (matching the
correlation key) arrives before the idle status message, the
TerminalResult has status 500 and its body equals the formatted error
summary, regardless of any stream or execute_result messages that
also arrived. -/
theorem claim_c3_error_priority (ph n v : String) (pre mid : List Msg)
    (hpre : ∀ m ∈ pre, (∃ t, m = streamMsg ph t) ∨ ∃ d, m = executeResultMsg ph d)
    (hmid : ∀ m ∈ mid, (∃ t, m = streamMsg ph t) ∨ ∃ d, m = executeResultMsg ph d) :
    (processMsgs ph (resetState, none) (pre ++ errorMsg ph n v :: (mid ++ [idleMsg ph]))).2 =
      some { status := 500, content := some (formatError n v) } := by
  rw [processMsgs_append]
  obtain ⟨hpe, hpf⟩ := processMsgs_se_preserves ph pre hpre resetState none
  rcases hst1 : processMsgs ph (resetState, none) pre with ⟨s1, fut1⟩
  rw [hst1] at hpe hpf
  simp only [resetState] at hpe hpf
  subst hpf
  rw [processMsgs_cons, recvStep_errorMsg, processMsgs_append]
  obtain ⟨hme, hmf⟩ := processMsgs_se_preserves ph mid hmid
    { s1 with error_message := some (formatError n v) } none
  rcases hst2 : processMsgs ph ({ s1 with error_message := some (formatError n v) }, none) mid
    with ⟨s2, fut2⟩
  rw [hst2] at hme hmf
  simp only at hme hmf
  subst hmf
  rw [show [idleMsg ph] = idleMsg ph :: [] from rfl, processMsgs_cons, recvStep_idleMsg]
  simp only [processMsgs, List.foldl_nil]
  rw [idleResult_of_error s2 n v hme]
  rfl

theorem claim_c3_witness :
    (processMsgs "k" (resetState, none)
        ([streamMsg "k" "x"] ++ errorMsg "k" "E" "boom" ::
          ([executeResultMsg "k" "9"] ++ [idleMsg "k"]))).2 =
      some { status := 500, content := some (formatError "E" "boom") } :=
  claim_c3_error_priority "k" "E" "boom" [streamMsg "k" "x"] [executeResultMsg "k" "9"]
    (by intro m hm
        simp only [List.mem_singleton] at hm
        exact Or.inl ⟨"x", hm⟩)
    (by intro m hm
        simp only [List.mem_singleton] at hm
        exact Or.inr ⟨"9", hm⟩)

/-- C1: the claim says that when an execute_result arrives and no
error arrives, the TerminalResult has status 200 and its body is the
structured result's textual form.  The source instead assigns
`self.error_message` (Python `None` on this path) to the body in the
execute_result branch of the idle handler: on a run with stream text
"x" and execute_result "42", the produced result is status 200 with a
`None` body, not "42". -/
theorem claim_c1_result_branch_defect :
    (processMsgs "k" (resetState, none)
        [streamMsg "k" "x", executeResultMsg "k" "42", idleMsg "k"]).2 =
      some { status := 200, content := none } := by
  rfl

/-- C7 counterexample: the claim says errorSummary is set-once and
formatted exactly as "Error <name>: <value>".  Processing a second
error message overwrites the field (the value after two errors
differs from the value after the first), and the stored format also
carries a trailing " \n". -/
theorem claim_c7_counterexample :
    ((processMsgs "k" (resetState, none)
        [errorMsg "k" "A" "a", errorMsg "k" "B" "b"]).1.error_message ≠
      (processMsgs "k" (resetState, none) [errorMsg "k" "A" "a"]).1.error_message) ∧
    (processMsgs "k" (resetState, none) [errorMsg "k" "A" "a"]).1.error_message ≠
      some "Error A: a" := by
  decide

/-- C7 (amended): every error message bearing the matching correlation
key assigns errorSummary to "Error <name>: <value> \n" (trailing
space and newline), overwriting any previously stored value — the
last error wins. -/
theorem claim_c7_error_overwrite (ph n v : String) (s : AggState)
    (fut : Option TerminalResult) :
    on_recv ph s fut (errorMsg ph n v) =
      .ok ({ s with error_message := some ("Error " ++ n ++ ": " ++ v ++ " \n") }, fut) :=
  on_recv_errorMsg ph n v s fut

/-- C8 counterexample: the claim says the Correlator silently drops
every malformed message and never raises.  A message whose dictionary
lacks the parent_header key makes `on_recv` raise KeyError
(`Except.error`) instead of dropping it. -/
theorem claim_c8_counterexample :
    on_recv "k" resetState none
        { parent_header := none, header := none, content := none } =
      .error () := by
  rfl

/-- C8 (amended): messages whose correlation key differs from the
assigned key are silently dropped, and well-formed matching-key
messages of unrecognized type are silently dropped, but a message
missing a dictionary field that processing accesses (such as
parent_header itself) raises KeyError out of `on_recv` rather than
being dropped. -/
theorem claim_c8_drop_or_keyerror (ph : String) (s : AggState) (fut : Option TerminalResult) :
    (∀ msg p mid, msg.parent_header = some p → p.msg_id = some mid → mid ≠ ph →
        on_recv ph s fut msg = .ok (s, fut)) ∧
    (∀ msg hd mt, msg.parent_header = some { msg_id := some ph } → msg.header = some hd →
        hd.msg_type = some mt → mt ≠ "status" → mt ≠ "execute_result" → mt ≠ "stream" →
        mt ≠ "error" → on_recv ph s fut msg = .ok (s, fut)) ∧
    (∀ msg, msg.parent_header = none → on_recv ph s fut msg = .error ()) :=
  ⟨fun msg p mid h1 h2 h3 => on_recv_key_mismatch ph s fut msg p mid h1 h2 h3,
   fun msg hd mt h1 h2 h3 h4 h5 h6 h7 =>
     on_recv_unknown_type ph s fut msg hd mt h1 h2 h3 h4 h5 h6 h7,
   fun msg h1 => by simp [on_recv, h1]⟩

theorem claim_c8_witness :
    on_recv "k" resetState none
        { parent_header := some { msg_id := some "k" },
          header := some { msg_type := some "comm_msg" },
          content := none } =
      .ok (resetState, none) :=
  (claim_c8_drop_or_keyerror "k" resetState none).2.1
    { parent_header := some { msg_id := some "k" },
      header := some { msg_type := some "comm_msg" },
      content := none }
    { msg_type := some "comm_msg" } "comm_msg" rfl rfl rfl
    (by decide) (by decide) (by decide) (by decide)

/-- C5: for every message whose correlation key (parent_header.msg_id)
differs from the Correlator's assigned key, processing that message
leaves the entire AggregationState (execute_result, stream_messages,
error_message) and the completion signal unchanged. -/
theorem claim_c5_key_filter (ph : String) (s : AggState) (fut : Option TerminalResult)
    (msg : Msg) (p : MsgParentHeader) (mid : String)
    (h1 : msg.parent_header = some p) (h2 : p.msg_id = some mid) (h3 : mid ≠ ph) :
    on_recv ph s fut msg = .ok (s, fut) :=
  on_recv_key_mismatch ph s fut msg p mid h1 h2 h3

theorem claim_c5_witness :
    on_recv "k" resetState none (streamMsg "other" "x") = .ok (resetState, none) :=
  claim_c5_key_filter "k" resetState none (streamMsg "other" "x")
    { msg_id := some "other" } "other" rfl rfl (by decide)

/-- C6: the TerminalResult is produced exactly once per request and
producing it is irreversible: after the Correlator has resolved, any
further messages (including a second idle bearing the same
correlation key) never re-resolve the completion signal and never
change the already-produced result. -/
theorem claim_c6_resolution_irreversible (ph : String) (s : AggState) (r : TerminalResult)
    (msgs : List Msg) :
    (processMsgs ph (s, some r) msgs).2 = some r :=
  processMsgs_snd_resolved ph r msgs (s, some r) rfl

/-- C2: for every request that reaches the kernel-acquisition step,
exactly one pool release is performed for the one acquire, on every
exit path: normal completion, translation failure, submission
failure, or an exception while awaiting resolution. -/
theorem claim_c2_lease_balance (s0 : AggState) (env : ReqEnv) (out : HandlerOutcome)
    (hm : env.method ∈ env.sources) (h : handle_request s0 env = some out) :
    countEvent out.events PoolEvent.acquire = 1 ∧
    countEvent out.events PoolEvent.release = 1 := by
  simp only [handle_request, if_pos hm] at h
  repeat' split at h
  all_goals
    (first
      | exact Option.noConfusion h
      | (injection h with h'; subst h'; exact ⟨rfl, rfl⟩))

theorem claim_c2_witness :
    countEvent [(PoolEvent.acquire, resetState), (PoolEvent.registerListener, resetState),
        (PoolEvent.submit, resetState), (PoolEvent.submit, resetState),
        (PoolEvent.release, resetState)] PoolEvent.acquire = 1 ∧
    countEvent [(PoolEvent.acquire, resetState), (PoolEvent.registerListener, resetState),
        (PoolEvent.submit, resetState), (PoolEvent.submit, resetState),
        (PoolEvent.release, resetState)] PoolEvent.release = 1 :=
  claim_c2_lease_balance resetState
    { method := "GET", sources := ["GET"], translationOk := true, submissionOk := true,
      key := "k", msgs := [idleMsg "k"], awaitRaises := false }
    { events := [(PoolEvent.acquire, resetState), (PoolEvent.registerListener, resetState),
        (PoolEvent.submit, resetState), (PoolEvent.submit, resetState),
        (PoolEvent.release, resetState)],
      status := some 200, body := some (some ""), finished := true }
    (by decide) rfl

/-- C9: for every HTTP request whose method has no configured source
snippet, the handler responds 405 and performs zero pool
interactions: no acquire, no listener registration, no submit, and no
release. -/
theorem claim_c9_unsupported_method (s0 : AggState) (env : ReqEnv)
    (h : env.method ∉ env.sources) :
    handle_request s0 env =
      some { events := [], status := some 405, body := none, finished := true } := by
  simp [handle_request, h]

theorem claim_c9_witness :
    handle_request resetState
        { method := "PUT", sources := ["GET"], translationOk := true, submissionOk := true,
          key := "k", msgs := [], awaitRaises := false } =
      some { events := [], status := some 405, body := none, finished := true } :=
  claim_c9_unsupported_method resetState
    { method := "PUT", sources := ["GET"], translationOk := true, submissionOk := true,
      key := "k", msgs := [], awaitRaises := false }
    (by decide)

/-- C10: every invocation of the request handler resets the
aggregation state (execute_result to none, stream_messages to the
empty list, error_message to none) before any pool interaction — the
state carried by the first pool event is the reset state — so the
handler outcome does not depend on the aggregation state left behind
on the class-level shared fields. -/
theorem claim_c10_reset_before_pool (s0 s0' : AggState) (env : ReqEnv) :
    handle_request s0 env = handle_request s0' env ∧
    (∀ out e rest, handle_request s0 env = some out → out.events = e :: rest →
      e = (PoolEvent.acquire, resetState)) := by
  constructor
  · rfl
  · intro out e rest hreq hev
    simp only [handle_request] at hreq
    repeat' split at hreq
    all_goals
      (first
        | exact Option.noConfusion hreq
        | (injection hreq with h'; subst h'
           first
             | exact List.noConfusion hev
             | (injection hev with h1 h2; subst h1; rfl)))

theorem claim_c10_witness :
    (handle_request
        { execute_result := some "stale", stream_messages := ["old"],
          error_message := some "Error X: y \n" }
        { method := "GET", sources := ["GET"], translationOk := true, submissionOk := true,
          key := "k", msgs := [idleMsg "k"], awaitRaises := false } =
      handle_request resetState
        { method := "GET", sources := ["GET"], translationOk := true, submissionOk := true,
          key := "k", msgs := [idleMsg "k"], awaitRaises := false }) ∧
    (PoolEvent.acquire, resetState) = (PoolEvent.acquire, resetState) :=
  ⟨(claim_c10_reset_before_pool
      { execute_result := some "stale", stream_messages := ["old"],
        error_message := some "Error X: y \n" }
      resetState
      { method := "GET", sources := ["GET"], translationOk := true, submissionOk := true,
        key := "k", msgs := [idleMsg "k"], awaitRaises := false }).1,
   (claim_c10_reset_before_pool
      { execute_result := some "stale", stream_messages := ["old"],
        error_message := some "Error X: y \n" }
      resetState
      { method := "GET", sources := ["GET"], translationOk := true, submissionOk := true,
        key := "k", msgs := [idleMsg "k"], awaitRaises := false }).2
     { events := [(PoolEvent.acquire, resetState), (PoolEvent.registerListener, resetState),
         (PoolEvent.submit, resetState), (PoolEvent.submit, resetState),
         (PoolEvent.release, resetState)],
       status := some 200, body := some (some ""), finished := true }
     (PoolEvent.acquire, resetState)
     [(PoolEvent.registerListener, resetState), (PoolEvent.submit, resetState),
       (PoolEvent.submit, resetState), (PoolEvent.release, resetState)]
     rfl rfl⟩

end NotebookGateway
